import Mathlib

/-!
Verification of the underwriting pipeline of the LLM-INSURANCE-AGENT
repository, embedded shallowly from src/src/pipeline: the data model
(models.py), the deterministic stage logic (premium_calculation.py,
authority_check.py, revenue_estimation.py, rate_discovery.py,
modifiers.py, the numeric coercion of email_parser.py, the date logic of
quote_generation.py) and the orchestrator (orchestrator.py).

Conventions of the embedding:
- Python floats are modelled as exact rationals; Python round (which
  rounds half to even) is modelled on the rationals.
- Python strings are lists of characters.  Python truthiness of numbers,
  strings, lists and None is modelled explicitly wherever the source
  relies on it.
- Code that may raise returns Except; external collaborators (the LLM
  client, the vector store, MongoDB, the clock) enter as parameters.
-/

namespace InsurancePipeline

/-- Python strings, modelled as lists of characters. -/
abbrev PyStr := List Char

/-- Does the second list start with the first?  Helper for the substring
test below. -/
def startsList : PyStr → PyStr → Bool
  | [], _ => true
  | _ :: _, [] => false
  | a :: as, b :: bs => a == b && startsList as bs

/-- Python substring containment: true when needle occurs contiguously in
hay (the Python test needle in hay; the empty needle is contained in
everything). -/
def containsSeq (needle hay : PyStr) : Bool :=
  startsList needle hay ||
    match hay with
    | [] => false
    | _ :: t => containsSeq needle t

/-- Python str.lower, for the ASCII range used by the source. -/
def pyLower (s : PyStr) : PyStr := s.map Char.toLower

/-- Python str.upper, for the ASCII range used by the source. -/
def pyUpper (s : PyStr) : PyStr := s.map Char.toUpper

/-- The characters Python str.strip removes by default. -/
def isPySpace (c : Char) : Bool :=
  c == ' ' || c == '\t' || c == '\n' || c == '\r' || c == '\x0b' || c == '\x0c'

/-- Python str.strip with no arguments. -/
def pyStrip (s : PyStr) : PyStr :=
  ((s.dropWhile isPySpace).reverse.dropWhile isPySpace).reverse

/-- Python s.replace(c, empty string) for a one-character pattern c. -/
def removeChar (c : Char) (s : PyStr) : PyStr := s.filter (fun a => a != c)

/-- Python s.endswith(c) for a one-character suffix c. -/
def lastIs (c : Char) (s : PyStr) : Bool := s.getLast? == some c

/-- Python round(x) to an integer: round half to even (banker's
rounding), modelled on exact rationals. -/
def pyRoundInt (q : ℚ) : ℤ :=
  let f : ℤ := ⌊q⌋
  let r : ℚ := q - f
  if r < 1/2 then f
  else if 1/2 < r then f + 1
  else if f % 2 = 0 then f else f + 1

/-- Python round(x, 2), modelled on exact rationals. -/
def pyRound2 (q : ℚ) : ℚ := (pyRoundInt (q * 100) : ℚ) / 100

/-- Python round(x, 4), modelled on exact rationals. -/
def pyRound4 (q : ℚ) : ℚ := (pyRoundInt (q * 10000) : ℚ) / 10000

/-- Python truthiness of an optional float (None and 0.0 are falsy). -/
def truthyQ : Option ℚ → Bool
  | none => false
  | some x => x != 0

/-- Python truthiness of an optional int (None and 0 are falsy). -/
def truthyZ : Option ℤ → Bool
  | none => false
  | some n => n != 0

/-- Python truthiness of an optional string (None and the empty string
are falsy). -/
def truthyS : Option PyStr → Bool
  | none => false
  | some s => !s.isEmpty

/-! ## Data model (src/src/pipeline/models.py)

Each structure below mirrors one pydantic model field for field.  Floats
become rationals, str becomes PyStr, Optional becomes Option, datetime
fields become abstract rational clock readings. -/

/-- models.py CoverageRequest. -/
structure CoverageRequest where
  coverage_type : PyStr
  limits : Option PyStr := none
  additional_details : Option PyStr := none
deriving DecidableEq

/-- models.py BrokerContact. -/
structure BrokerContact where
  name : Option PyStr := none
  email : Option PyStr := none
  phone : Option PyStr := none
  brokerage : Option PyStr := none
deriving DecidableEq

/-- models.py ExtractedEmail (the client profile produced by step 1). -/
structure ExtractedEmail where
  client_name : PyStr
  industry_description : PyStr
  location : Option PyStr := none
  annual_revenue : Option ℚ := none
  employee_count : Option ℤ := none
  years_in_business : Option ℤ := none
  coverage_requested : List CoverageRequest := []
  vehicle_count : Option ℤ := none
  property_value : Option ℚ := none
  loss_history : Option PyStr := none
  effective_date : Option PyStr := none
  urgency : Option PyStr := none
  broker : Option BrokerContact := none
  raw_email : PyStr
deriving DecidableEq

/-- models.py IndustryClassification. -/
structure IndustryClassification where
  bic_code : PyStr
  industry_name : PyStr
  risk_category : PyStr
  confidence_score : ℚ
  matching_keywords : List PyStr := []
  subcategory : Option PyStr := none
deriving DecidableEq

/-- models.py RateInfo. -/
structure RateInfo where
  bic_code : PyStr
  coverage_type : PyStr
  base_rate : ℚ
  rate_basis : PyStr
  minimum_premium : ℚ
  source_document : Option PyStr := none
deriving DecidableEq

/-- Abstraction of the notes strings built by revenue_estimation.py:
employeeBased stands for "Estimated based on N employees in NAME
industry. Using R revenue per employee benchmark.", industryMedian for
"Estimated using industry median for NAME. Limited information available
- underwriter verification required.". -/
inductive EstimateNote
  | employeeBased (employeeCount : ℤ) (industryName : PyStr) (revPerEmployee : ℚ)
  | industryMedian (industryName : PyStr)
deriving DecidableEq

/-- models.py RevenueEstimate.  The notes field holds the structured
abstraction of the note string. -/
structure RevenueEstimate where
  estimated_revenue : ℚ
  estimation_method : PyStr
  confidence_level : PyStr
  requires_verification : Bool := true
  notes : Option EstimateNote := none
deriving DecidableEq

/-- Abstraction of the calculation_notes strings built in
premium_calculation.py lines 83-100, one constructor per branch of the
rate-basis dispatch, carrying the numbers interpolated into the string. -/
inductive CalcNoteBase
  | revenueNote (exposure rate : ℚ)
  | payrollNote (exposure rate : ℚ)
  | vehicleNote (count rate : ℚ)
  | propertyNote (exposure rate : ℚ)
  | defaultNote
deriving DecidableEq

/-- The calculation_notes value of a premium line item: the base note
plus whether the source appended the literal suffix
" (minimum premium applied)" (premium_calculation.py line 111). -/
structure CalcNote where
  base : CalcNoteBase
  minimumApplied : Bool
deriving DecidableEq

/-- models.py PremiumLineItem.  calculation_notes is always set by the
only producer (PremiumCalculationStep), so it is not optional here. -/
structure PremiumLineItem where
  coverage_type : PyStr
  base_premium : ℚ
  rate_used : ℚ
  rate_basis : PyStr
  exposure_value : ℚ
  calculation_notes : CalcNote
deriving DecidableEq

/-- models.py PremiumCalculation; the timestamp is an abstract clock
reading. -/
structure PremiumCalculation where
  line_items : List PremiumLineItem := []
  total_base_premium : ℚ
  calculation_timestamp : ℚ := 0
deriving DecidableEq

/-- models.py ModifierDetail. -/
structure ModifierDetail where
  modifier_name : PyStr
  modifier_type : PyStr
  modifier_value : ℚ
  reason : PyStr
  premium_impact : ℚ
deriving DecidableEq

/-- models.py ModifierResult. -/
structure ModifierResult where
  modifiers_applied : List ModifierDetail := []
  total_modifier_impact : ℚ
  total_modifier_percentage : ℚ
  adjusted_premium : ℚ
deriving DecidableEq

/-- The four authority levels of authority_check.py, represented there by
the literal strings "standard", "senior", "management", "reinsurance". -/
inductive AuthorityLevel
  | standard
  | senior
  | management
  | reinsurance
deriving DecidableEq

/-- Abstraction of the referral-reason strings appended by
authority_check.py, one constructor per append site, carrying the values
interpolated into the string. -/
inductive ReferralReason
  | premiumExceedsStandard (premium : ℚ)
  | premiumRequiresManagement (premium : ℚ)
  | premiumExceedsTreaty (premium : ℚ)
  | highRiskIndustry (industryName : PyStr)
  | adverseLossHistory
  | newVenture
deriving DecidableEq

/-- models.py AuthorityCheck.  approval_reason abstracts the "; "-joined
string of referral reasons (None when the list is empty). -/
structure AuthorityCheck where
  authority_level : AuthorityLevel
  requires_approval : Bool
  approval_reason : Option (List ReferralReason) := none
  approver_role : Option PyStr := none
  auto_bind_eligible : Bool := false
  referral_reasons : List ReferralReason := []
deriving DecidableEq

/-- models.py EndorsementRecommendation. -/
structure EndorsementRecommendation where
  endorsement_name : PyStr
  endorsement_type : PyStr
  reason : PyStr
  estimated_cost : Option ℚ := none
  required : Bool := false
deriving DecidableEq

/-- models.py CoverageLimitation. -/
structure CoverageLimitation where
  limitation_type : PyStr
  description : PyStr
  reason : PyStr
deriving DecidableEq

/-- models.py CoverageAnalysis. -/
structure CoverageAnalysis where
  recommended_endorsements : List EndorsementRecommendation := []
  coverage_limitations : List CoverageLimitation := []
  coverage_gaps : List PyStr := []
  notes : Option PyStr := none
deriving DecidableEq

/-- models.py RiskFactor. -/
structure RiskFactor where
  factor_name : PyStr
  factor_category : PyStr
  severity : PyStr
  description : PyStr
  mitigation : Option PyStr := none
deriving DecidableEq

/-- models.py RiskAssessment. -/
structure RiskAssessment where
  overall_risk_level : PyStr
  risk_score : ℚ
  risk_factors : List RiskFactor := []
  positive_factors : List PyStr := []
  underwriting_notes : List PyStr := []
  recommendation : PyStr
deriving DecidableEq

/-- models.py QuotePremiumSummary. -/
structure QuotePremiumSummary where
  coverage_type : PyStr
  premium : ℚ
  limits : Option PyStr := none
  deductible : Option ℚ := none
deriving DecidableEq

/-- models.py GeneratedQuote; generated_at is an abstract clock reading. -/
structure GeneratedQuote where
  quote_id : PyStr
  client_name : PyStr
  effective_date : Option PyStr := none
  expiration_date : Option PyStr := none
  quote_valid_until : PyStr
  premium_summary : List QuotePremiumSummary := []
  total_annual_premium : ℚ
  coverage_summary : PyStr
  terms_and_conditions : List PyStr := []
  exclusions : List PyStr := []
  underwriting_notes : List PyStr := []
  quote_letter : PyStr
  generated_at : ℚ := 0
  pipeline_version : PyStr
deriving DecidableEq

/-- models.py PipelineMetrics; durations are abstract clock readings. -/
structure PipelineMetrics where
  total_duration_seconds : ℚ
  step_durations : List (PyStr × ℚ) := []
  llm_calls : ℤ := 0
  vector_searches : ℤ := 0
  documents_retrieved : ℤ := 0
deriving DecidableEq

/-- Abstraction of the warning strings appended by orchestrator.py:
revenueEstimated stands for "Revenue estimated at A - requires
verification" (line 157), approvalRequired for "Requires ROLE approval"
(line 194). -/
inductive WarningMsg
  | revenueEstimated (amount : ℚ)
  | approvalRequired (role : Option PyStr)
deriving DecidableEq

/-- models.py PipelineResult. -/
structure PipelineResult where
  success : Bool
  quote_id : Option PyStr := none
  extracted_email : Option ExtractedEmail := none
  industry_classification : Option IndustryClassification := none
  rate_info : List RateInfo := []
  revenue_estimate : Option RevenueEstimate := none
  premium_calculation : Option PremiumCalculation := none
  modifier_result : Option ModifierResult := none
  authority_check : Option AuthorityCheck := none
  coverage_analysis : Option CoverageAnalysis := none
  risk_assessment : Option RiskAssessment := none
  generated_quote : Option GeneratedQuote := none
  metrics : Option PipelineMetrics := none
  errors : List PyStr := []
  warnings : List WarningMsg := []
deriving DecidableEq

/-! ## Step 4: Revenue estimation (revenue_estimation.py) -/

/-- The INDUSTRY_REVENUE_PER_EMPLOYEE class table of
RevenueEstimationStep (revenue_estimation.py lines 21-36). -/
def industryRevenuePerEmployee : List (PyStr × ℚ) :=
  [("11".toList, 150000), ("21".toList, 500000), ("22".toList, 400000),
   ("23".toList, 180000), ("44".toList, 200000), ("31".toList, 250000),
   ("42".toList, 350000), ("44-45".toList, 150000), ("48".toList, 120000),
   ("51".toList, 300000), ("54".toList, 200000), ("62".toList, 180000),
   ("72-2".toList, 70000), ("81-2".toList, 60000)]

/-- The industry_medians table of RevenueEstimationStep._simple_estimate
(revenue_estimation.py lines 107-122). -/
def industryMedians : List (PyStr × ℚ) :=
  [("11".toList, 500000), ("21".toList, 2000000), ("22".toList, 1500000),
   ("23".toList, 750000), ("44".toList, 1500000), ("31".toList, 2000000),
   ("42".toList, 3000000), ("44-45".toList, 1000000), ("48".toList, 1000000),
   ("51".toList, 2000000), ("54".toList, 750000), ("62".toList, 1500000),
   ("72-2".toList, 500000), ("81-2".toList, 250000)]

/-- RevenueEstimationStep._employee_based_estimate
(revenue_estimation.py lines 73-102).  Only invoked by execute when
employee_count is truthy; dict.get with default becomes lookup + getD.
The years-in-business guard is Python truthiness, then 1.2 above ten
years else 1.1 above five. -/
def employeeBasedEstimate (email : ExtractedEmail)
    (industry : IndustryClassification) : RevenueEstimate :=
  let revPerEmployee := (industryRevenuePerEmployee.lookup industry.bic_code).getD 150000
  let n := email.employee_count.getD 0
  let base := (n : ℚ) * revPerEmployee
  let estimated :=
    if truthyZ email.years_in_business then
      let y := email.years_in_business.getD 0
      if 10 < y then base * (6/5)
      else if 5 < y then base * (11/10)
      else base
    else base
  { estimated_revenue := estimated
    estimation_method := "employee_count_multiplier".toList
    confidence_level := "MEDIUM".toList
    requires_verification := true
    notes := some (.employeeBased n industry.industry_name revPerEmployee) }

/-- RevenueEstimationStep._simple_estimate (revenue_estimation.py lines
104-133). -/
def simpleEstimate (industry : IndustryClassification) : RevenueEstimate :=
  let estimated := (industryMedians.lookup industry.bic_code).getD 1000000
  { estimated_revenue := estimated
    estimation_method := "industry_median".toList
    confidence_level := "LOW".toList
    requires_verification := true
    notes := some (.industryMedian industry.industry_name) }

/-- RevenueEstimationStep.execute (revenue_estimation.py lines 47-71).
Both guards are Python truthiness tests on optional numbers: a revenue
or employee count of exactly zero behaves like an absent one. -/
def revenueEstimationExecute (email : ExtractedEmail)
    (industry : IndustryClassification) : Option RevenueEstimate :=
  if truthyQ email.annual_revenue then none
  else if !truthyZ email.employee_count then some (simpleEstimate industry)
  else some (employeeBasedEstimate email industry)

/-! ## Step 3: Rate discovery fallback (rate_discovery.py) -/

/-- The default general-liability rate of
RateDiscoveryStep._get_default_rates (rate_discovery.py lines 110-116). -/
def glDefaultRate (industry : IndustryClassification) : RateInfo :=
  { bic_code := industry.bic_code
    coverage_type := "general_liability".toList
    base_rate := 5
    rate_basis := "per_1000_revenue".toList
    minimum_premium := 1500
    source_document := none }

/-- The default property rate of RateDiscoveryStep._get_default_rates
(rate_discovery.py lines 120-126). -/
def propertyDefaultRate (industry : IndustryClassification) : RateInfo :=
  { bic_code := industry.bic_code
    coverage_type := "property".toList
    base_rate := 35/100
    rate_basis := "percent_of_tiv".toList
    minimum_premium := 1000
    source_document := none }

/-- The default auto-liability rate of
RateDiscoveryStep._get_default_rates (rate_discovery.py lines 130-136). -/
def autoDefaultRate (industry : IndustryClassification) : RateInfo :=
  { bic_code := industry.bic_code
    coverage_type := "auto_liability".toList
    base_rate := 750
    rate_basis := "per_vehicle".toList
    minimum_premium := 1500
    source_document := none }

/-- RateDiscoveryStep._get_default_rates (rate_discovery.py lines
101-138).  The property and auto rates are guarded by Python truthiness
of the optional profile numbers. -/
def getDefaultRates (email : ExtractedEmail)
    (industry : IndustryClassification) : List RateInfo :=
  [glDefaultRate industry]
    ++ (if truthyQ email.property_value then [propertyDefaultRate industry] else [])
    ++ (if truthyZ email.vehicle_count then [autoDefaultRate industry] else [])

/-- Tail of RateDiscoveryStep.execute (rate_discovery.py lines 95-99):
parsedRates is the list of usable rate rows already extracted from the
LLM response (lines 78-93, the external-collaborator boundary); when it
is empty the deterministic defaults are substituted. -/
def rateDiscoveryResult (email : ExtractedEmail)
    (industry : IndustryClassification) (parsedRates : List RateInfo) :
    List RateInfo :=
  if parsedRates.isEmpty then getDefaultRates email industry else parsedRates

/-! ## Step 5: Premium calculation (premium_calculation.py) -/

/-- The exposures dict of PremiumCalculationStep.execute
(premium_calculation.py lines 40-56): revenue falls back to the estimate
(when one is present) and then to 1,000,000; payroll is 0.35 of revenue;
the or-0 defaults on property value and vehicle count coincide with getD
0 on numbers. -/
structure Exposures where
  revenue : ℚ
  payroll : ℚ
  property_value : ℚ
  vehicle_count : ℚ
deriving DecidableEq

def exposuresOf (email : ExtractedEmail)
    (revenueEstimate : Option RevenueEstimate) : Exposures :=
  let afterEstimate : Option ℚ :=
    match email.annual_revenue, revenueEstimate with
    | none, some est => some est.estimated_revenue
    | r, _ => r
  let revenue : ℚ := afterEstimate.getD 1000000
  { revenue := revenue
    payroll := revenue * (35/100)
    property_value := email.property_value.getD 0
    vehicle_count := ((email.vehicle_count.getD 0 : ℤ) : ℚ) }

/-- The rate-basis dispatch of PremiumCalculationStep._calculate_line_item
(premium_calculation.py lines 77-100): lowercase the basis, then choose
exposure value, multiplier and note text by substring tests, in source
order.  Returns (exposure_value, multiplier, note). -/
def lineBasisData (rate : RateInfo) (ex : Exposures) : ℚ × ℚ × CalcNoteBase :=
  let basis := pyLower rate.rate_basis
  if containsSeq ("revenue".toList) basis || containsSeq ("1000".toList) basis then
    (ex.revenue, ex.revenue / 1000, .revenueNote ex.revenue rate.base_rate)
  else if containsSeq ("payroll".toList) basis || containsSeq ("100".toList) basis then
    (ex.payroll, ex.payroll / 100, .payrollNote ex.payroll rate.base_rate)
  else if containsSeq ("vehicle".toList) basis then
    (ex.vehicle_count, ex.vehicle_count, .vehicleNote ex.vehicle_count rate.base_rate)
  else if containsSeq ("tiv".toList) basis || containsSeq ("percent".toList) basis
      || containsSeq ("property".toList) basis then
    (ex.property_value, ex.property_value * (rate.base_rate / 100),
      .propertyNote ex.property_value rate.base_rate)
  else
    (ex.revenue, ex.revenue / 1000, .defaultNote)

/-- The calculated premium of a line (premium_calculation.py lines
102-105): base_rate times the multiplier, except that a basis containing
"percent" is recomputed as property_value times base_rate over 100
(overwriting line 103's bare multiplier). -/
def lineCalculated (rate : RateInfo) (ex : Exposures) : ℚ :=
  let basis := pyLower rate.rate_basis
  let mult := (lineBasisData rate ex).2.1
  let c := if !containsSeq ("percent".toList) basis then rate.base_rate * mult else mult
  if containsSeq ("percent".toList) basis then ex.property_value * (rate.base_rate / 100) else c

/-- PremiumCalculationStep._calculate_line_item (premium_calculation.py
lines 71-120): the final premium is the max of the calculated premium
and the minimum premium, rounded to two decimals; the minimum-applied
suffix is appended exactly under the source's guard on line 110. -/
def calculateLineItem (rate : RateInfo) (ex : Exposures) : PremiumLineItem :=
  let d := lineBasisData rate ex
  let calculated := lineCalculated rate ex
  let final := max calculated rate.minimum_premium
  { coverage_type := rate.coverage_type
    base_premium := pyRound2 final
    rate_used := rate.base_rate
    rate_basis := rate.rate_basis
    exposure_value := d.1
    calculation_notes :=
      { base := d.2.2
        minimumApplied :=
          final == rate.minimum_premium && decide (calculated < rate.minimum_premium) } }

/-- PremiumCalculationStep.execute (premium_calculation.py lines 23-69);
the timestamp parameter stands for datetime.utcnow(). -/
def premiumCalculationExecute (email : ExtractedEmail) (rates : List RateInfo)
    (revenueEstimate : Option RevenueEstimate) (now : ℚ) : PremiumCalculation :=
  let ex := exposuresOf email revenueEstimate
  let items := rates.map (fun r => calculateLineItem r ex)
  { line_items := items
    total_base_premium := (items.map (fun i => i.base_premium)).sum
    calculation_timestamp := now }

/-! ## Step 6: Modifiers (modifiers.py) -/

/-- Tail of ModifiersStep.execute (modifiers.py lines 94-104): mods is
the list of ModifierDetail values parsed from the LLM response (lines
83-92, the external-collaborator boundary).  The dollar-impact sum is
added to the base premium; the fraction sum is recorded separately. -/
def modifiersExecute (premiumCalc : PremiumCalculation)
    (mods : List ModifierDetail) : ModifierResult :=
  let totalImpact := (mods.map (fun m => m.premium_impact)).sum
  let totalPercentage := (mods.map (fun m => m.modifier_value)).sum
  let adjusted := premiumCalc.total_base_premium + totalImpact
  { modifiers_applied := mods
    total_modifier_impact := pyRound2 totalImpact
    total_modifier_percentage := pyRound4 totalPercentage
    adjusted_premium := pyRound2 adjusted }

/-! ## Step 7: Authority check (authority_check.py) -/

/-- The premium-threshold base level and its referral reason
(authority_check.py lines 59-70).  Thresholds are the class constants
STANDARD_MAX_PREMIUM = 50000, SENIOR_MAX_PREMIUM = 150000,
MANAGEMENT_MAX_PREMIUM = 500000, all compared with ≤. -/
def baseAuthorityData (premium : ℚ) : AuthorityLevel × List ReferralReason :=
  if premium ≤ 50000 then (.standard, [])
  else if premium ≤ 150000 then (.senior, [.premiumExceedsStandard premium])
  else if premium ≤ 500000 then (.management, [.premiumRequiresManagement premium])
  else (.reinsurance, [.premiumExceedsTreaty premium])

/-- The premium-only base authority level (first component of
baseAuthorityData). -/
def baseAuthorityLevel (premium : ℚ) : AuthorityLevel :=
  (baseAuthorityData premium).1

/-- The escalation keywords of authority_check.py line 81. -/
def lossKeywords : List PyStr :=
  [("multiple".toList), ("several".toList), ("frequent".toList),
   ("large".toList), ("major".toList)]

/-- The loss-history escalation guard (authority_check.py lines 79-81):
the loss-history string is truthy and its lowercase form contains one of
the escalation keywords. -/
def lossHistoryFires (email : ExtractedEmail) : Bool :=
  truthyS email.loss_history &&
    lossKeywords.any (fun w => containsSeq w (pyLower (email.loss_history.getD [])))

/-- The new-venture guard (authority_check.py line 87): years in
business truthy and below 2. -/
def newVentureFires (email : ExtractedEmail) : Bool :=
  truthyZ email.years_in_business && decide (email.years_in_business.getD 0 < 2)

/-- AuthorityCheckStep.execute (authority_check.py lines 39-116). -/
def authorityCheckExecute (email : ExtractedEmail)
    (industry : IndustryClassification) (modifierResult : ModifierResult) :
    AuthorityCheck :=
  let premium := modifierResult.adjusted_premium
  let base := baseAuthorityData premium
  let level0 := base.1
  let reasons0 := base.2
  let highRisk := industry.risk_category == "HIGH".toList
  let level1 : AuthorityLevel :=
    if highRisk && level0 == AuthorityLevel.standard then .senior else level0
  let reasons1 :=
    if highRisk then reasons0 ++ [.highRiskIndustry industry.industry_name] else reasons0
  let lossHit := lossHistoryFires email
  let level2 : AuthorityLevel :=
    if lossHit && (level1 == AuthorityLevel.standard || level1 == AuthorityLevel.senior) then
      (if level1 == AuthorityLevel.senior then .management else .senior)
    else level1
  let reasons2 := if lossHit then reasons1 ++ [.adverseLossHistory] else reasons1
  let reasons3 := if newVentureFires email then reasons2 ++ [.newVenture] else reasons2
  let approverRole : Option PyStr :=
    match level2 with
    | .senior => some ("Senior Underwriter".toList)
    | .management => some ("Underwriting Manager".toList)
    | .reinsurance => some ("Reinsurance Team".toList)
    | .standard => none
  { authority_level := level2
    requires_approval := level2 != AuthorityLevel.standard
    approval_reason := if reasons3.isEmpty then none else some reasons3
    approver_role := approverRole
    auto_bind_eligible :=
      level2 == AuthorityLevel.standard
        && industry.risk_category != "HIGH".toList
        && reasons3.isEmpty
    referral_reasons := reasons3 }

/-- The escalation order of the four authority tiers. -/
def levelRank : AuthorityLevel → ℕ
  | .standard => 0
  | .senior => 1
  | .management => 2
  | .reinsurance => 3

/-! ## Step 1: numeric coercion of the email parser (email_parser.py) -/

/-- The dynamic values a parsed JSON field can take in _parse_number. -/
inductive PyValue
  | none
  | int (n : ℤ)
  | bool (b : Bool)
  | float (q : ℚ)
  | str (s : PyStr)
  | other
deriving DecidableEq

/-- The exception outcome of the coercion. -/
inductive PyError
  | valueError
deriving DecidableEq

/-- The numeric value of a list of decimal digits. -/
def digitsVal (l : PyStr) : ℕ := l.foldl (fun a c => a * 10 + (c.toNat - 48)) 0

/-- Exponent tail of a decimal float literal: empty input keeps the
mantissa, an e or E introduces a signed digit exponent, anything else is
rejected. -/
def pyFloatExp (sgn m : ℚ) (l : PyStr) : Option ℚ :=
  match l with
  | [] => some (sgn * m)
  | c :: t =>
    if c == 'e' || c == 'E' then
      let negExp := match t with | '-' :: _ => true | _ => false
      let t1 := match t with | '+' :: u => u | '-' :: u => u | _ => t
      let ed := t1.takeWhile Char.isDigit
      let rest := t1.dropWhile Char.isDigit
      if ed.isEmpty || !rest.isEmpty then none
      else
        let e : ℤ := if negExp then -(digitsVal ed : ℤ) else (digitsVal ed : ℤ)
        some (sgn * m * (10 : ℚ) ^ e)
    else none

/-- Model of the Python float(str) constructor restricted to finite
decimal literals: surrounding whitespace, an optional sign, digits with
an optional decimal point (at least one digit overall), an optional
exponent.  The inf/nan spellings and digit-group underscores Python also
accepts are not used by this repository and are not modelled.  Returns
none where float() raises ValueError. -/
def pyFloatOfStr (s : PyStr) : Option ℚ :=
  let t := pyStrip s
  let sgn : ℚ := match t with | '-' :: _ => -1 | _ => 1
  let body : PyStr := match t with | '+' :: u => u | '-' :: u => u | _ => t
  let ip := body.takeWhile Char.isDigit
  let r1 := body.dropWhile Char.isDigit
  match r1 with
  | '.' :: u =>
    let fp := u.takeWhile Char.isDigit
    let r2 := u.dropWhile Char.isDigit
    if ip.isEmpty && fp.isEmpty then none
    else pyFloatExp sgn ((digitsVal ip : ℚ) + (digitsVal fp : ℚ) / (10 : ℚ) ^ fp.length) r2
  | _ => if ip.isEmpty then none else pyFloatExp sgn (digitsVal ip : ℚ) r1

/-- EmailParserStep._parse_number (email_parser.py lines 80-103).
Returns ok none where the source returns None, ok (some q) where it
returns a float, and error where it raises: the float() calls in the
K/M-suffix branches (lines 91 and 93) sit outside the try/except, so a
suffixed string whose prefix is not a valid float literal raises
ValueError.  A Python bool passes the isinstance int test and is coerced
to 1.0 or 0.0. -/
def parseNumber (v : PyValue) : Except PyError (Option ℚ) :=
  match v with
  | .none => .ok none
  | .int n => .ok (some (n : ℚ))
  | .bool b => .ok (some (if b then 1 else 0))
  | .float q => .ok (some q)
  | .str s =>
    let cleaned := pyStrip (removeChar ',' (removeChar '$' s))
    if lastIs 'M' (pyUpper cleaned) then
      match pyFloatOfStr cleaned.dropLast with
      | some x => .ok (some (x * 1000000))
      | Option.none => .error .valueError
    else if lastIs 'K' (pyUpper cleaned) then
      match pyFloatOfStr cleaned.dropLast with
      | some x => .ok (some (x * 1000))
      | Option.none => .error .valueError
    else
      match pyFloatOfStr cleaned with
      | some x => .ok (some x)
      | Option.none => .ok none
  | .other => .ok none

/-! ## Step 10: date logic of quote generation (quote_generation.py) -/

/-- A Python datetime.date. -/
structure PyDate where
  year : ℤ
  month : ℤ
  day : ℤ
deriving DecidableEq

/-- Gregorian leap-year rule. -/
def isLeapYear (y : ℤ) : Bool := y % 4 == 0 && (y % 100 != 0 || y % 400 == 0)

/-- Length of a Gregorian month. -/
def daysInMonth (y m : ℤ) : ℤ :=
  if m == 2 then (if isLeapYear y then 29 else 28)
  else if m == 4 || m == 6 || m == 9 || m == 11 then 30
  else 31

/-- The successor day in the Gregorian calendar. -/
def nextDay (d : PyDate) : PyDate :=
  if d.day < daysInMonth d.year d.month then { d with day := d.day + 1 }
  else if d.month == 12 then { year := d.year + 1, month := 1, day := 1 }
  else { year := d.year, month := d.month + 1, day := 1 }

/-- date + timedelta(days = n), as n successor steps. -/
def addDays (d : PyDate) : ℕ → PyDate
  | 0 => d
  | n + 1 => addDays (nextDay d) n

/-- Python date.replace(day = 1). -/
def firstOfMonth (d : PyDate) : PyDate := { d with day := 1 }

/-- The effective-date default of QuoteGenerationStep.execute
(quote_generation.py lines 123-129): when today's day of month exceeds
15, (today.replace(day=1) + timedelta(days=32)).replace(day=1),
otherwise today.replace(day=1). -/
def defaultEffectiveDate (today : PyDate) : PyDate :=
  if 15 < today.day then firstOfMonth (addDays (firstOfMonth today) 32)
  else firstOfMonth today

/-- The first day of the month after the given date's month (a
statement-level abbreviation, not source code). -/
def firstOfNextMonth (d : PyDate) : PyDate :=
  if d.month == 12 then { year := d.year + 1, month := 1, day := 1 }
  else { year := d.year, month := d.month + 1, day := 1 }

/-- The three dates computed by QuoteGenerationStep.execute. -/
structure QuoteDates where
  effective : PyDate
  expiration : Option PyDate
  validUntil : PyDate
deriving DecidableEq

/-- The date outputs of QuoteGenerationStep.execute (quote_generation.py
lines 121-138), with the date strings modelled as parsed dates:
profileEffective is the strptime parse of the profile's effective-date
string when that string is truthy (on a well-formed date value the
strptime of line 133 cannot fail, so expiration is always the effective
date plus 365 days here); today stands for datetime.now(). -/
def quoteDates (profileEffective : Option PyDate) (today : PyDate) : QuoteDates :=
  let effective :=
    match profileEffective with
    | some d => d
    | none => defaultEffectiveDate today
  { effective := effective
    expiration := some (addDays effective 365)
    validUntil := addDays today 30 }

/-! ## Orchestrator (orchestrator.py)

UnderwritingPipeline.process runs the ten stages inside one try/except.
Each stage call can raise (collaborator errors), so a stage is modelled
as a function into Except carrying the stringified exception.  The
concrete stage implementations above are particular instances; the
orchestrator theorems hold for every stage behaviour.  The clock enters
through the duration fields of the environment, MongoDB through saveOk
(whether the replace_one write succeeds). -/

structure StageEnv where
  parseEmailStage : PyStr → Except PyStr ExtractedEmail
  classifyStage : ExtractedEmail → Except PyStr IndustryClassification
  rateStage : ExtractedEmail → IndustryClassification → Except PyStr (List RateInfo)
  revenueStage : ExtractedEmail → IndustryClassification →
    Except PyStr (Option RevenueEstimate)
  premiumStage : ExtractedEmail → List RateInfo → Option RevenueEstimate →
    Except PyStr PremiumCalculation
  modifierStage : ExtractedEmail → IndustryClassification → PremiumCalculation →
    Except PyStr ModifierResult
  authorityStage : ExtractedEmail → IndustryClassification → ModifierResult →
    Except PyStr AuthorityCheck
  coverageStage : ExtractedEmail → IndustryClassification →
    Except PyStr CoverageAnalysis
  riskStage : ExtractedEmail → IndustryClassification → ModifierResult →
    Except PyStr RiskAssessment
  quoteStage : ExtractedEmail → IndustryClassification → PremiumCalculation →
    ModifierResult → CoverageAnalysis → RiskAssessment → AuthorityCheck →
    Except PyStr GeneratedQuote
  saveOk : Bool
  savedAt : ℚ
  totalDuration : ℚ
  stepDuration : PyStr → ℚ

/-- The document written by UnderwritingPipeline._save_result
(orchestrator.py lines 268-286): the result serialized at save time,
keyed by the quote id, with a saved_at timestamp attached. -/
structure SavedQuote where
  id : Option PyStr
  doc : PipelineResult
  saved_at : ℚ
deriving DecidableEq

/-- The observable outcome of one process call: the returned
PipelineResult plus what was persisted (none when nothing was saved,
either because a stage failed or because the MongoDB write itself
raised, which _save_result catches). -/
structure ProcessOutcome where
  result : PipelineResult
  saved : Option SavedQuote

/-- One entry of the step_durations map. -/
def stepDur (env : StageEnv) (name : PyStr) : PyStr × ℚ :=
  (name, env.stepDuration name)

/-- The common tail of process (orchestrator.py lines 254-264): attach
metrics, errors and warnings to the result before returning it.
documents_retrieved is initialized to 0 on line 111 and never
incremented. -/
def attachMetrics (env : StageEnv) (r : PipelineResult)
    (durations : List (PyStr × ℚ)) (llm vs : ℤ)
    (errors : List PyStr) (warnings : List WarningMsg) : PipelineResult :=
  { r with
    metrics := some
      { total_duration_seconds := env.totalDuration
        step_durations := durations
        llm_calls := llm
        vector_searches := vs
        documents_retrieved := 0 }
    errors := errors
    warnings := warnings }

/-- UnderwritingPipeline.process (orchestrator.py lines 95-266).  Stage
outputs are assigned onto the result as soon as the stage returns; the
first stage exception jumps to the except block, which records the
stringified error and leaves success false; metrics, errors and warnings
are attached after the try/except on every path; the save happens inside
the try, after success is set, and only when all ten stages completed. -/
def process (env : StageEnv) (emailContent : PyStr) : ProcessOutcome :=
  let r0 : PipelineResult := { success := false }
  match env.parseEmailStage emailContent with
  | .error e => { result := attachMetrics env r0 [] 0 0 [e] [], saved := none }
  | .ok extractedEmail =>
    let d1 := [stepDur env ("email_parser".toList)]
    let r1 := { r0 with extracted_email := some extractedEmail }
    match env.classifyStage extractedEmail with
    | .error e => { result := attachMetrics env r1 d1 1 0 [e] [], saved := none }
    | .ok industry =>
      let d2 := d1 ++ [stepDur env ("industry_classifier".toList)]
      let r2 := { r1 with industry_classification := some industry }
      match env.rateStage extractedEmail industry with
      | .error e => { result := attachMetrics env r2 d2 2 1 [e] [], saved := none }
      | .ok rates =>
        let d3 := d2 ++ [stepDur env ("rate_discovery".toList)]
        let r3 := { r2 with rate_info := rates }
        match env.revenueStage extractedEmail industry with
        | .error e => { result := attachMetrics env r3 d3 3 2 [e] [], saved := none }
        | .ok revenueEstimate =>
          let d4 := d3 ++ [stepDur env ("revenue_estimation".toList)]
          let r4 := { r3 with revenue_estimate := revenueEstimate }
          let w4 : List WarningMsg :=
            match revenueEstimate with
            | some est => [.revenueEstimated est.estimated_revenue]
            | none => []
          match env.premiumStage extractedEmail rates revenueEstimate with
          | .error e => { result := attachMetrics env r4 d4 3 2 [e] w4, saved := none }
          | .ok premiumCalc =>
            let d5 := d4 ++ [stepDur env ("premium_calculation".toList)]
            let r5 := { r4 with premium_calculation := some premiumCalc }
            match env.modifierStage extractedEmail industry premiumCalc with
            | .error e => { result := attachMetrics env r5 d5 3 2 [e] w4, saved := none }
            | .ok modifierResult =>
              let d6 := d5 ++ [stepDur env ("modifiers".toList)]
              let r6 := { r5 with modifier_result := some modifierResult }
              match env.authorityStage extractedEmail industry modifierResult with
              | .error e => { result := attachMetrics env r6 d6 4 3 [e] w4, saved := none }
              | .ok authority =>
                let d7 := d6 ++ [stepDur env ("authority_check".toList)]
                let r7 := { r6 with authority_check := some authority }
                let w7 := w4 ++
                  (if authority.requires_approval then
                    [WarningMsg.approvalRequired authority.approver_role] else [])
                match env.coverageStage extractedEmail industry with
                | .error e => { result := attachMetrics env r7 d7 4 3 [e] w7, saved := none }
                | .ok coverage =>
                  let d8 := d7 ++ [stepDur env ("coverage_analysis".toList)]
                  let r8 := { r7 with coverage_analysis := some coverage }
                  match env.riskStage extractedEmail industry modifierResult with
                  | .error e =>
                    { result := attachMetrics env r8 d8 5 4 [e] w7, saved := none }
                  | .ok risk =>
                    let d9 := d8 ++ [stepDur env ("risk_assessment".toList)]
                    let r9 := { r8 with risk_assessment := some risk }
                    match env.quoteStage extractedEmail industry premiumCalc
                        modifierResult coverage risk authority with
                    | .error e =>
                      { result := attachMetrics env r9 d9 6 5 [e] w7, saved := none }
                    | .ok quote =>
                      let d10 := d9 ++ [stepDur env ("quote_generation".toList)]
                      let r10 := { r9 with
                        generated_quote := some quote
                        quote_id := some quote.quote_id
                        success := true }
                      let saved : Option SavedQuote :=
                        if env.saveOk then
                          some { id := r10.quote_id, doc := r10, saved_at := env.savedAt }
                        else none
                      { result := attachMetrics env r10 d10 7 5 [] w7, saved := saved }

/-! ## Concrete sample inputs used by witnesses and counterexamples -/

deriving instance DecidableEq for Except

/-- A profile whose vehicle count is stated as zero, used to exercise a
line whose calculated premium is below the minimum. -/
def emailVehicleZero : ExtractedEmail :=
  { client_name := "Acme Logistics".toList
    industry_description := "freight trucking".toList
    annual_revenue := some 1000000
    vehicle_count := some 0
    raw_email := "Please quote auto liability.".toList }

/-- A per-vehicle rate whose minimum premium is not a whole-cent amount
(three decimal places). -/
def rateFractionalMinimum : RateInfo :=
  { bic_code := "48".toList
    coverage_type := "auto_liability".toList
    base_rate := 100
    rate_basis := "per_vehicle".toList
    minimum_premium := 1500456/1000
    source_document := none }

/-- A per-vehicle rate with a whole-dollar minimum premium. -/
def rateWholeMinimum : RateInfo :=
  { bic_code := "48".toList
    coverage_type := "auto_liability".toList
    base_rate := 750
    rate_basis := "per_vehicle".toList
    minimum_premium := 1500
    source_document := none }

/-! ## Helper lemmas: evaluation of the rate-basis dispatch on the three
basis strings that appear in the default rates -/

theorem basisDispatch_perVehicle (ex : Exposures) (rate : RateInfo)
    (h : rate.rate_basis = "per_vehicle".toList) :
    lineBasisData rate ex =
      (ex.vehicle_count, ex.vehicle_count, .vehicleNote ex.vehicle_count rate.base_rate) ∧
    lineCalculated rate ex = rate.base_rate * ex.vehicle_count := by
  have h1 : containsSeq ("revenue".toList) (pyLower ("per_vehicle".toList)) = false := by decide
  have h2 : containsSeq ("1000".toList) (pyLower ("per_vehicle".toList)) = false := by decide
  have h3 : containsSeq ("payroll".toList) (pyLower ("per_vehicle".toList)) = false := by decide
  have h4 : containsSeq ("100".toList) (pyLower ("per_vehicle".toList)) = false := by decide
  have h5 : containsSeq ("vehicle".toList) (pyLower ("per_vehicle".toList)) = true := by decide
  have h6 : containsSeq ("percent".toList) (pyLower ("per_vehicle".toList)) = false := by decide
  constructor
  · simp only [lineBasisData, h, h1, h2, h3, h4, h5]
    simp
  · simp only [lineCalculated, lineBasisData, h, h1, h2, h3, h4, h5, h6]
    simp

theorem basisDispatch_perRevenue (ex : Exposures) (rate : RateInfo)
    (h : rate.rate_basis = "per_1000_revenue".toList) :
    lineBasisData rate ex =
      (ex.revenue, ex.revenue / 1000, .revenueNote ex.revenue rate.base_rate) ∧
    lineCalculated rate ex = rate.base_rate * (ex.revenue / 1000) := by
  have h1 : containsSeq ("revenue".toList) (pyLower ("per_1000_revenue".toList)) = true := by
    decide
  have h6 : containsSeq ("percent".toList) (pyLower ("per_1000_revenue".toList)) = false := by
    decide
  constructor
  · simp only [lineBasisData, h, h1]
    simp
  · simp only [lineCalculated, lineBasisData, h, h1, h6]
    simp

theorem basisDispatch_percentTiv (ex : Exposures) (rate : RateInfo)
    (h : rate.rate_basis = "percent_of_tiv".toList) :
    lineBasisData rate ex =
      (ex.property_value, ex.property_value * (rate.base_rate / 100),
        .propertyNote ex.property_value rate.base_rate) ∧
    lineCalculated rate ex = ex.property_value * (rate.base_rate / 100) := by
  have h1 : containsSeq ("revenue".toList) (pyLower ("percent_of_tiv".toList)) = false := by
    decide
  have h2 : containsSeq ("1000".toList) (pyLower ("percent_of_tiv".toList)) = false := by decide
  have h3 : containsSeq ("payroll".toList) (pyLower ("percent_of_tiv".toList)) = false := by
    decide
  have h4 : containsSeq ("100".toList) (pyLower ("percent_of_tiv".toList)) = false := by decide
  have h5 : containsSeq ("vehicle".toList) (pyLower ("percent_of_tiv".toList)) = false := by
    decide
  have h6 : containsSeq ("percent".toList) (pyLower ("percent_of_tiv".toList)) = true := by decide
  have h7 : containsSeq ("tiv".toList) (pyLower ("percent_of_tiv".toList)) = true := by decide
  constructor
  · simp only [lineBasisData, h, h1, h2, h3, h4, h5, h7]
    simp
  · simp only [lineCalculated, lineBasisData, h, h1, h2, h3, h4, h5, h6, h7]
    simp

/-! ## Claim theorems -/

/-- C1, amended: for every RateInfo in the input list of
PremiumCalculationStep.execute whose calculated premium is strictly
below the rate's minimum premium, the resulting line item's base_premium
equals the minimum premium rounded to two decimal places — hence equals
minimum_premium exactly whenever that rounding fixes it, in particular
for every whole-cent minimum — and its calculation notes carry the
minimum-premium-applied statement. -/
theorem premium_minimum_applied :
    (∀ email rates re now,
      (premiumCalculationExecute email rates re now).line_items =
        rates.map (fun r => calculateLineItem r (exposuresOf email re))) ∧
    (∀ rate ex, lineCalculated rate ex < rate.minimum_premium →
      (calculateLineItem rate ex).base_premium = pyRound2 rate.minimum_premium ∧
      (calculateLineItem rate ex).calculation_notes.minimumApplied = true ∧
      (pyRound2 rate.minimum_premium = rate.minimum_premium →
        (calculateLineItem rate ex).base_premium = rate.minimum_premium)) := by
  constructor
  · intro email rates re now
    rfl
  · intro rate ex h
    have hmax : max (lineCalculated rate ex) rate.minimum_premium = rate.minimum_premium :=
      max_eq_right h.le
    refine ⟨?_, ?_, ?_⟩
    · simp [calculateLineItem, hmax]
    · simp [calculateLineItem, hmax, h]
    · intro heq
      simp [calculateLineItem, hmax, heq]

/-- C1 counterexample: with a minimum premium of 1500.456 dollars and a
calculated premium of 0, the stored base_premium is the rounded 1500.46,
not the minimum premium exactly, so the claim as stated fails. -/
theorem premium_minimum_applied_counterexample :
    lineCalculated rateFractionalMinimum
        (exposuresOf emailVehicleZero none) <
      rateFractionalMinimum.minimum_premium ∧
    (premiumCalculationExecute emailVehicleZero [rateFractionalMinimum] none 0).line_items.map
        (fun li => li.base_premium) = [150046/100] ∧
    (150046/100 : ℚ) ≠ rateFractionalMinimum.minimum_premium := by
  have hd := basisDispatch_perVehicle (exposuresOf emailVehicleZero none)
    rateFractionalMinimum (by decide)
  have hveh : (exposuresOf emailVehicleZero none).vehicle_count = 0 := by decide
  have hcalc : lineCalculated rateFractionalMinimum (exposuresOf emailVehicleZero none) = 0 := by
    rw [hd.2, hveh, mul_zero]
  have hmin : rateFractionalMinimum.minimum_premium = 1500456/1000 := by
    norm_num [rateFractionalMinimum]
  have hmax : max (lineCalculated rateFractionalMinimum (exposuresOf emailVehicleZero none))
      rateFractionalMinimum.minimum_premium = 1500456/1000 := by
    rw [hcalc, hmin]
    exact max_eq_right (by norm_num)
  refine ⟨?_, ?_, ?_⟩
  · rw [hcalc, hmin]
    norm_num
  · simp only [premiumCalculationExecute, List.map, calculateLineItem, hmax, List.map]
    norm_num [pyRound2, pyRoundInt]
  · rw [hmin]
    norm_num

/-- C1 witness: the amended theorem applied to a whole-dollar minimum
premium of 1500 with a calculated premium of 0. -/
theorem premium_minimum_applied_witness :
    (calculateLineItem rateWholeMinimum
        (exposuresOf emailVehicleZero none)).base_premium =
      rateWholeMinimum.minimum_premium ∧
    (calculateLineItem rateWholeMinimum
        (exposuresOf emailVehicleZero none)).calculation_notes.minimumApplied = true := by
  have hd := basisDispatch_perVehicle (exposuresOf emailVehicleZero none)
    rateWholeMinimum (by decide)
  have hveh : (exposuresOf emailVehicleZero none).vehicle_count = 0 := by decide
  have hlt : lineCalculated rateWholeMinimum (exposuresOf emailVehicleZero none) <
      rateWholeMinimum.minimum_premium := by
    rw [hd.2, hveh, mul_zero]
    norm_num [rateWholeMinimum]
  have h := premium_minimum_applied.2 rateWholeMinimum
    (exposuresOf emailVehicleZero none) hlt
  exact ⟨h.2.2 (by norm_num [rateWholeMinimum, pyRound2, pyRoundInt]), h.2.1⟩

/-! ## Authority-check claims -/

/-- Statement-level abbreviation: the effect of the high-risk-industry
rule on the tier rank (raise to at least senior). -/
def highRiskStep (highRisk : Bool) (r : ℕ) : ℕ := if highRisk then max r 1 else r

/-- Statement-level abbreviation: the effect of the loss-history rule on
the tier rank (bump standard or senior by one tier). -/
def lossStep (lossHit : Bool) (r : ℕ) : ℕ :=
  if lossHit then (if r ≤ 1 then r + 1 else r) else r

/-- A profile with adverse loss history containing an escalation
keyword. -/
def emailAdverseLoss : ExtractedEmail :=
  { client_name := "Steelworks LLC".toList
    industry_description := "metal fabrication".toList
    annual_revenue := some 2000000
    loss_history := some ("Multiple large claims in the last three years".toList)
    raw_email := "Please quote GL.".toList }

/-- A high-risk industry classification. -/
def industryHighRisk : IndustryClassification :=
  { bic_code := "23".toList
    industry_name := "Construction".toList
    risk_category := "HIGH".toList
    confidence_score := 9/10 }

/-- A medium-risk industry classification. -/
def industryMediumRisk : IndustryClassification :=
  { bic_code := "54".toList
    industry_name := "Professional Services".toList
    risk_category := "MEDIUM".toList
    confidence_score := 8/10 }

/-- A modifier result whose adjusted premium is 60,000 dollars. -/
def modifierResult60k : ModifierResult :=
  { modifiers_applied := []
    total_modifier_impact := 0
    total_modifier_percentage := 0
    adjusted_premium := 60000 }

/-- C3: the premium-only base authority level is a pure function of the
adjusted premium with thresholds at 50,000 / 150,000 / 500,000 dollars
(compared with at-most), the boundary samples 49,999 / 50,001 / 500,001
land on standard / senior / reinsurance, and execute returns exactly the
base level whenever neither escalation rule fires. -/
theorem authority_base_thresholds :
    (∀ p : ℚ,
      (p ≤ 50000 → baseAuthorityLevel p = .standard) ∧
      (50000 < p → p ≤ 150000 → baseAuthorityLevel p = .senior) ∧
      (150000 < p → p ≤ 500000 → baseAuthorityLevel p = .management) ∧
      (500000 < p → baseAuthorityLevel p = .reinsurance)) ∧
    baseAuthorityLevel 49999 = .standard ∧
    baseAuthorityLevel 50001 = .senior ∧
    baseAuthorityLevel 500001 = .reinsurance ∧
    (∀ email industry mr, industry.risk_category ≠ "HIGH".toList →
      lossHistoryFires email = false →
      (authorityCheckExecute email industry mr).authority_level =
        baseAuthorityLevel mr.adjusted_premium) := by
  refine ⟨?_, ?_, ?_, ?_, ?_⟩
  · intro p
    refine ⟨?_, ?_, ?_, ?_⟩ <;> intros <;>
      simp only [baseAuthorityLevel, baseAuthorityData] <;>
      split_ifs <;> first | rfl | linarith
  · norm_num [baseAuthorityLevel, baseAuthorityData]
  · norm_num [baseAuthorityLevel, baseAuthorityData]
  · norm_num [baseAuthorityLevel, baseAuthorityData]
  · intro email industry mr hrisk hloss
    have hrisk' : industry.risk_category ≠ ['H', 'I', 'G', 'H'] := by
      simpa using hrisk
    simp [authorityCheckExecute, baseAuthorityLevel, hrisk', hloss]

/-- C3 witness: the threshold theorem applied at the premiums 49,999,
50,001 and 500,001, and execute applied with a medium-risk industry and
no loss history. -/
theorem authority_base_thresholds_witness :
    baseAuthorityLevel 49999 = .standard ∧
    baseAuthorityLevel 50001 = .senior ∧
    baseAuthorityLevel 500001 = .reinsurance ∧
    (authorityCheckExecute emailVehicleZero industryMediumRisk modifierResult60k).authority_level
      = baseAuthorityLevel modifierResult60k.adjusted_premium := by
  refine ⟨authority_base_thresholds.2.1, authority_base_thresholds.2.2.1,
    authority_base_thresholds.2.2.2.1, ?_⟩
  exact authority_base_thresholds.2.2.2.2 emailVehicleZero industryMediumRisk
    modifierResult60k (by decide) (by decide)

/-- C6: for every input, the final authority level never ranks below the
premium-only baseline; the final rank is exactly the baseline pushed
through the high-risk rule (raise to at least senior) and then the
loss-history rule (bump standard or senior by one tier); and each
escalation rule that fires appends its referral reason. -/
theorem authority_escalation_monotone :
    ∀ email industry mr,
      levelRank (baseAuthorityLevel mr.adjusted_premium) ≤
        levelRank (authorityCheckExecute email industry mr).authority_level ∧
      levelRank (authorityCheckExecute email industry mr).authority_level =
        lossStep (lossHistoryFires email)
          (highRiskStep (industry.risk_category == "HIGH".toList)
            (levelRank (baseAuthorityLevel mr.adjusted_premium))) ∧
      (industry.risk_category = "HIGH".toList →
        ReferralReason.highRiskIndustry industry.industry_name ∈
          (authorityCheckExecute email industry mr).referral_reasons) ∧
      (lossHistoryFires email = true →
        ReferralReason.adverseLossHistory ∈
          (authorityCheckExecute email industry mr).referral_reasons) := by
  intro email industry mr
  rcases hbase : baseAuthorityData mr.adjusted_premium with ⟨lvl, rs⟩
  have hlvl : baseAuthorityLevel mr.adjusted_premium = lvl := by
    simp [baseAuthorityLevel, hbase]
  by_cases hH : industry.risk_category = "HIGH".toList <;>
    by_cases hL : lossHistoryFires email = true <;>
    cases lvl <;>
    simp_all [authorityCheckExecute, hbase, highRiskStep, lossStep, levelRank] <;>
    split_ifs <;>
    simp_all

/-- C6 witness: a high-risk industry with adverse loss history escalates
an adjusted premium of 60,000 (baseline senior) to management, and both
referral reasons are recorded. -/
theorem authority_escalation_monotone_witness :
    levelRank (baseAuthorityLevel modifierResult60k.adjusted_premium) ≤
      levelRank (authorityCheckExecute emailAdverseLoss industryHighRisk
        modifierResult60k).authority_level ∧
    ReferralReason.highRiskIndustry industryHighRisk.industry_name ∈
      (authorityCheckExecute emailAdverseLoss industryHighRisk
        modifierResult60k).referral_reasons ∧
    ReferralReason.adverseLossHistory ∈
      (authorityCheckExecute emailAdverseLoss industryHighRisk
        modifierResult60k).referral_reasons := by
  have h := authority_escalation_monotone emailAdverseLoss industryHighRisk modifierResult60k
  exact ⟨h.1, h.2.2.1 (by decide), h.2.2.2 (by decide)⟩

/-! ## Modifier, revenue-estimation and rate-discovery claims -/

/-- A base premium calculation of 5,000 dollars with no line items. -/
def premiumCalc5000 : PremiumCalculation :=
  { line_items := [], total_base_premium := 5000, calculation_timestamp := 0 }

/-- Two parsed modifiers: a 10 percent credit worth -500 dollars and a 5
percent debit worth 250 dollars. -/
def modsSample : List ModifierDetail :=
  [{ modifier_name := "Experience credit".toList
     modifier_type := "experience".toList
     modifier_value := -1/10
     reason := "Clean loss history".toList
     premium_impact := -500 },
   { modifier_name := "New venture debit".toList
     modifier_type := "tenure".toList
     modifier_value := 1/20
     reason := "Under two years in business".toList
     premium_impact := 250 }]

/-- The same dollar impacts with zeroed-out modifier fractions. -/
def modsZeroFractions : List ModifierDetail :=
  [{ modifier_name := "Experience credit".toList
     modifier_type := "experience".toList
     modifier_value := 0
     reason := "Clean loss history".toList
     premium_impact := -500 },
   { modifier_name := "New venture debit".toList
     modifier_type := "tenure".toList
     modifier_value := 0
     reason := "Under two years in business".toList
     premium_impact := 250 }]

/-- C4: the adjusted premium returned by ModifiersStep.execute is the
base premium plus the sum of the individual premium_impact values,
rounded to two decimals at the boundary, and it is a function of those
dollar impacts alone — changing the modifier fractions while keeping
the impacts fixed cannot change it. -/
theorem modifiers_adjusted_premium_sum :
    ∀ pc mods,
      (modifiersExecute pc mods).adjusted_premium =
        pyRound2 (pc.total_base_premium +
          ((modifiersExecute pc mods).modifiers_applied.map
            (fun m => m.premium_impact)).sum) ∧
      (modifiersExecute pc mods).modifiers_applied = mods ∧
      (∀ mods',
        mods'.map (fun m => m.premium_impact) = mods.map (fun m => m.premium_impact) →
        (modifiersExecute pc mods').adjusted_premium =
          (modifiersExecute pc mods).adjusted_premium) := by
  intro pc mods
  refine ⟨rfl, rfl, ?_⟩
  intro mods' h
  simp only [modifiersExecute]
  rw [h]

/-- C4 witness: the sum law applied to a 5,000-dollar base premium with
impacts -500 and 250, and invariance under zeroing the fractions. -/
theorem modifiers_adjusted_premium_sum_witness :
    (modifiersExecute premiumCalc5000 modsSample).adjusted_premium =
      pyRound2 (premiumCalc5000.total_base_premium +
        ((modifiersExecute premiumCalc5000 modsSample).modifiers_applied.map
          (fun m => m.premium_impact)).sum) ∧
    (modifiersExecute premiumCalc5000 modsZeroFractions).adjusted_premium =
      (modifiersExecute premiumCalc5000 modsSample).adjusted_premium := by
  refine ⟨(modifiers_adjusted_premium_sum premiumCalc5000 modsSample).1, ?_⟩
  exact (modifiers_adjusted_premium_sum premiumCalc5000 modsSample).2.2
    modsZeroFractions rfl

/-- A profile whose annual revenue is stated as exactly zero. -/
def emailRevenueZero : ExtractedEmail :=
  { client_name := "Dormant Holdings".toList
    industry_description := "consulting".toList
    annual_revenue := some 0
    raw_email := "Quote request.".toList }

/-- C5, amended: RevenueEstimationStep.execute returns null exactly when
the profile's annual revenue is truthy, that is non-null and nonzero; in
particular it returns null for every non-null nonzero revenue, but a
revenue stated as zero does not suppress estimation. -/
theorem revenue_estimation_suppression :
    ∀ email industry,
      (revenueEstimationExecute email industry = none ↔
        truthyQ email.annual_revenue = true) ∧
      (∀ r : ℚ, email.annual_revenue = some r → r ≠ 0 →
        revenueEstimationExecute email industry = none) := by
  intro email industry
  constructor
  · by_cases h : truthyQ email.annual_revenue = true
    · simp [revenueEstimationExecute, h]
    · simp only [Bool.not_eq_true] at h
      simp only [revenueEstimationExecute, h]
      split_ifs <;> simp_all
  · intro r hr hne
    have ht : truthyQ email.annual_revenue = true := by
      simp [truthyQ, hr, hne]
    simp [revenueEstimationExecute, ht]

/-- C5 counterexample: a revenue stated as zero is non-null, yet
execute produces an estimate instead of null, so the claim as stated
fails. -/
theorem revenue_estimation_suppression_counterexample :
    emailRevenueZero.annual_revenue = some 0 ∧
    revenueEstimationExecute emailRevenueZero industryMediumRisk ≠ none := by
  exact ⟨rfl, by decide⟩

/-- C5 witness: the amended theorem applied to a profile with a non-null
nonzero revenue of 2,000,000. -/
theorem revenue_estimation_suppression_witness :
    revenueEstimationExecute emailAdverseLoss industryMediumRisk = none :=
  (revenue_estimation_suppression emailAdverseLoss industryMediumRisk).2
    2000000 rfl (by norm_num)

/-- A profile whose property value is stated as exactly zero. -/
def emailPropertyZero : ExtractedEmail :=
  { client_name := "Vacant Lot LLC".toList
    industry_description := "real estate".toList
    property_value := some 0
    raw_email := "Quote request.".toList }

/-- A profile with a non-null nonzero property value and vehicle count. -/
def emailFullAssets : ExtractedEmail :=
  { client_name := "Asset Rich Inc".toList
    industry_description := "distribution".toList
    property_value := some 500000
    vehicle_count := some 3
    raw_email := "Quote request.".toList }

/-- C7, amended: when rate discovery obtains zero usable rate rows it
returns the deterministic defaults: always a general-liability rate of
5.0 per 1000 of revenue with minimum 1,500; plus a property rate of 0.35
percent of insured value with minimum 1,000 exactly when the property
value is truthy (non-null and nonzero); plus an auto-liability rate of
750 per vehicle with minimum 1,500 exactly when the vehicle count is
truthy; and with one or more usable rows no defaults are substituted. -/
theorem rate_discovery_default_rates :
    ∀ email industry,
      rateDiscoveryResult email industry [] = getDefaultRates email industry ∧
      (∀ rates, rates ≠ [] → rateDiscoveryResult email industry rates = rates) ∧
      glDefaultRate industry ∈ getDefaultRates email industry ∧
      glDefaultRate industry =
        { bic_code := industry.bic_code
          coverage_type := "general_liability".toList
          base_rate := 5
          rate_basis := "per_1000_revenue".toList
          minimum_premium := 1500
          source_document := none } ∧
      (propertyDefaultRate industry ∈ getDefaultRates email industry ↔
        truthyQ email.property_value = true) ∧
      propertyDefaultRate industry =
        { bic_code := industry.bic_code
          coverage_type := "property".toList
          base_rate := 35/100
          rate_basis := "percent_of_tiv".toList
          minimum_premium := 1000
          source_document := none } ∧
      (autoDefaultRate industry ∈ getDefaultRates email industry ↔
        truthyZ email.vehicle_count = true) ∧
      autoDefaultRate industry =
        { bic_code := industry.bic_code
          coverage_type := "auto_liability".toList
          base_rate := 750
          rate_basis := "per_vehicle".toList
          minimum_premium := 1500
          source_document := none } ∧
      (truthyQ email.property_value = true ↔
        ∃ v, email.property_value = some v ∧ v ≠ 0) ∧
      (truthyZ email.vehicle_count = true ↔
        ∃ n, email.vehicle_count = some n ∧ n ≠ 0) := by
  intro email industry
  refine ⟨rfl, ?_, ?_, rfl, ?_, rfl, ?_, rfl, ?_, ?_⟩
  · intro rates h
    simp [rateDiscoveryResult, h]
  · simp [getDefaultRates]
  · by_cases hp : truthyQ email.property_value = true <;>
      simp [getDefaultRates, hp, glDefaultRate, propertyDefaultRate, autoDefaultRate]
  · by_cases hv : truthyZ email.vehicle_count = true <;>
      simp [getDefaultRates, hv, glDefaultRate, propertyDefaultRate, autoDefaultRate]
  · cases hpv : email.property_value <;> simp [truthyQ, hpv]
  · cases hvc : email.vehicle_count <;> simp [truthyZ, hvc]

/-- C7 counterexample: a property value stated as zero is non-null, yet
the default rates contain no property rate, so the claimed
if-and-only-if on non-nullness fails. -/
theorem rate_discovery_default_rates_counterexample :
    emailPropertyZero.property_value = some 0 ∧
    (getDefaultRates emailPropertyZero industryMediumRisk).map
      (fun r => r.coverage_type) = [("general_liability".toList)] := by
  exact ⟨rfl, by decide⟩

/-- C7 witness: the amended theorem applied to a profile with nonzero
property value and vehicle count, where all three default rates are
emitted on the empty rate-row fallback. -/
theorem rate_discovery_default_rates_witness :
    rateDiscoveryResult emailFullAssets industryMediumRisk [] =
      getDefaultRates emailFullAssets industryMediumRisk ∧
    propertyDefaultRate industryMediumRisk ∈
      getDefaultRates emailFullAssets industryMediumRisk ∧
    autoDefaultRate industryMediumRisk ∈
      getDefaultRates emailFullAssets industryMediumRisk := by
  have h := rate_discovery_default_rates emailFullAssets industryMediumRisk
  exact ⟨h.1, h.2.2.2.2.1.mpr (by decide), h.2.2.2.2.2.2.1.mpr (by decide)⟩

/-! ## Email-parser coercion claim -/

/-- C8: the numeric coercion normalizes dollar signs, commas and K/M
suffixes as claimed, and turns an unparseable plain string into null —
but it does not never-raise: on a string that ends in K or M whose
prefix is not a valid float literal (for example "AM"), the float() call
sits outside the try/except and the coercion raises ValueError, so the
safety claim fails on the code. -/
theorem parse_number_coercion :
    parseNumber (.str ("$15M".toList)) = .ok (some 15000000) ∧
    parseNumber (.str ("250K".toList)) = .ok (some 250000) ∧
    parseNumber (.str ("$1,000,000".toList)) = .ok (some 1000000) ∧
    parseNumber (.str ("abc".toList)) = .ok none ∧
    parseNumber (.none) = .ok none ∧
    parseNumber (.str ("AM".toList)) = .error .valueError := by
  have h15 : parseNumber (.str ("$15M".toList)) =
      .ok (some ((1 : ℚ) * ((15 : ℕ) : ℚ) * 1000000)) := by
    set_option maxRecDepth 4000 in rfl
  have h250 : parseNumber (.str ("250K".toList)) =
      .ok (some ((1 : ℚ) * ((250 : ℕ) : ℚ) * 1000)) := by
    set_option maxRecDepth 4000 in rfl
  have h1m : parseNumber (.str ("$1,000,000".toList)) =
      .ok (some ((1 : ℚ) * ((1000000 : ℕ) : ℚ))) := by
    set_option maxRecDepth 4000 in rfl
  refine ⟨?_, ?_, ?_, by decide, rfl, by decide⟩
  · rw [h15]
    simp only [Except.ok.injEq, Option.some.injEq]
    norm_num
  · rw [h250]
    simp only [Except.ok.injEq, Option.some.injEq]
    norm_num
  · rw [h1m]
    simp only [Except.ok.injEq, Option.some.injEq]
    norm_num

/-! ## Date lemmas for the quote-generation claim -/

theorem addDays_add (d : PyDate) (a b : ℕ) :
    addDays d (a + b) = addDays (addDays d a) b := by
  induction a generalizing d with
  | zero => simp [addDays]
  | succ n ih =>
    have hrw : n + 1 + b = (n + b) + 1 := by omega
    rw [hrw]
    show addDays (nextDay d) (n + b) = addDays (addDays d (n + 1)) b
    rw [ih]
    rfl

theorem addDays_within (y m : ℤ) (k : ℕ) :
    ∀ d : ℤ, 1 ≤ d → d + k ≤ daysInMonth y m →
      addDays ⟨y, m, d⟩ k = ⟨y, m, d + k⟩ := by
  induction k with
  | zero =>
    intro d h1 h2
    simp [addDays]
  | succ n ih =>
    intro d h1 h2
    have hlt : d < daysInMonth y m := by omega
    show addDays (nextDay ⟨y, m, d⟩) n = _
    have hnext : nextDay ⟨y, m, d⟩ = ⟨y, m, d + 1⟩ := by
      simp [nextDay, hlt]
    rw [hnext, ih (d + 1) (by omega) (by omega)]
    congr 1
    omega

theorem daysInMonth_bounds (y m : ℤ) :
    28 ≤ daysInMonth y m ∧ daysInMonth y m ≤ 31 := by
  simp only [daysInMonth]
  split_ifs <;> norm_num

theorem nextDay_at_end (y m : ℤ) :
    nextDay ⟨y, m, daysInMonth y m⟩ = firstOfNextMonth ⟨y, m, daysInMonth y m⟩ := by
  by_cases h12 : m = 12
  · subst h12
    norm_num [nextDay, firstOfNextMonth, daysInMonth]
  · have hb : (m == (12 : ℤ)) = false := by simp [h12]
    simp [nextDay, firstOfNextMonth, hb]

theorem addDays32_first (y m : ℤ) (h1 : 1 ≤ m) (h2 : m ≤ 12) :
    firstOfMonth (addDays ⟨y, m, 1⟩ 32) = firstOfNextMonth ⟨y, m, 1⟩ := by
  have hb := daysInMonth_bounds y m
  have hcase : daysInMonth y m = 28 ∨ daysInMonth y m = 29 ∨
      daysInMonth y m = 30 ∨ daysInMonth y m = 31 := by omega
  have key : ∀ k1 k2 : ℕ, (k1 : ℤ) + 1 = daysInMonth y m → (32 : ℕ) = k1 + (k2 + 1) →
      firstOfMonth (addDays ⟨y, m, 1⟩ 32) = firstOfNextMonth ⟨y, m, 1⟩ := by
    intro k1 k2 hk hsum
    rw [hsum, addDays_add, addDays_within y m k1 1 (by norm_num) (by omega)]
    have hday : (1 : ℤ) + (k1 : ℤ) = daysInMonth y m := by omega
    rw [hday]
    have hstep : addDays (⟨y, m, daysInMonth y m⟩ : PyDate) (k2 + 1) =
        addDays (nextDay ⟨y, m, daysInMonth y m⟩) k2 := rfl
    rw [hstep, nextDay_at_end]
    have hk2 : (k2 : ℤ) ≤ 4 := by omega
    by_cases h12 : m = 12
    · subst h12
      have hf : firstOfNextMonth (⟨y, 12, daysInMonth y 12⟩ : PyDate) = ⟨y + 1, 1, 1⟩ := by
        norm_num [firstOfNextMonth]
      have hjan : daysInMonth (y + 1) 1 = 31 := rfl
      rw [hf, addDays_within (y + 1) 1 k2 1 (by norm_num) (by omega)]
      norm_num [firstOfMonth, firstOfNextMonth]
    · have hb12 : (m == (12 : ℤ)) = false := by simp [h12]
      have hf : firstOfNextMonth (⟨y, m, daysInMonth y m⟩ : PyDate) = ⟨y, m + 1, 1⟩ := by
        simp [firstOfNextMonth, hb12]
      have hnb := daysInMonth_bounds y (m + 1)
      rw [hf, addDays_within y (m + 1) k2 1 (by norm_num) (by omega)]
      simp [firstOfMonth, firstOfNextMonth, hb12]
  rcases hcase with h | h | h | h
  · exact key 27 4 (by omega) (by norm_num)
  · exact key 28 3 (by omega) (by norm_num)
  · exact key 29 2 (by omega) (by norm_num)
  · exact key 30 1 (by omega) (by norm_num)

/-- C9, amended: when the profile's effective date is absent, the
default effective date is the first of the current month when today's
day of month is at most 15, and the first of the next month when it
exceeds 15 (one month earlier in both branches than the claim states);
the expiration date is the effective date plus 365 days and the
quote-valid-until date is issuance plus 30 days, as claimed. -/
theorem quote_dates_default :
    (∀ today : PyDate, 1 ≤ today.month → today.month ≤ 12 →
      (quoteDates none today).effective =
        (if 15 < today.day then firstOfNextMonth today else firstOfMonth today)) ∧
    (∀ (profileEffective : Option PyDate) (today : PyDate),
      (quoteDates profileEffective today).expiration =
        some (addDays (quoteDates profileEffective today).effective 365) ∧
      (quoteDates profileEffective today).validUntil = addDays today 30) := by
  constructor
  · intro today h1 h2
    rcases today with ⟨y, m, d⟩
    by_cases hd : 15 < d
    · have heff : (quoteDates none (⟨y, m, d⟩ : PyDate)).effective =
          firstOfMonth (addDays (firstOfMonth ⟨y, m, d⟩) 32) := by
        simp [quoteDates, defaultEffectiveDate, hd]
      rw [heff]
      have : firstOfMonth (⟨y, m, d⟩ : PyDate) = ⟨y, m, 1⟩ := rfl
      rw [this, addDays32_first y m h1 h2]
      simp [firstOfNextMonth, hd]
    · simp [quoteDates, defaultEffectiveDate, hd]
  · intro pe today
    constructor <;> simp [quoteDates]

/-- C9 counterexample: with today = 2026-10-10 (day at most 15) the code
backdates the effective date to 2026-10-01, not the claimed first of
next month 2026-11-01; with today = 2026-10-20 (day above 15) it yields
2026-11-01, not the claimed first of the month after next 2026-12-01. -/
theorem quote_dates_default_counterexample :
    (quoteDates none ⟨2026, 10, 10⟩).effective = ⟨2026, 10, 1⟩ ∧
    (⟨2026, 10, 1⟩ : PyDate) ≠ ⟨2026, 11, 1⟩ ∧
    (quoteDates none ⟨2026, 10, 20⟩).effective = ⟨2026, 11, 1⟩ ∧
    (⟨2026, 11, 1⟩ : PyDate) ≠ ⟨2026, 12, 1⟩ := by
  set_option maxRecDepth 10000 in decide

/-- C9 witness: the amended theorem applied at today = 2026-10-20. -/
theorem quote_dates_default_witness :
    (quoteDates none ⟨2026, 10, 20⟩).effective =
      (if 15 < (⟨2026, 10, 20⟩ : PyDate).day then firstOfNextMonth ⟨2026, 10, 20⟩
        else firstOfMonth ⟨2026, 10, 20⟩) ∧
    (quoteDates none ⟨2026, 10, 20⟩).expiration =
      some (addDays (quoteDates none ⟨2026, 10, 20⟩).effective 365) ∧
    (quoteDates none ⟨2026, 10, 20⟩).validUntil = addDays ⟨2026, 10, 20⟩ 30 := by
  exact ⟨quote_dates_default.1 ⟨2026, 10, 20⟩ (by decide) (by decide),
    (quote_dates_default.2 none ⟨2026, 10, 20⟩).1,
    (quote_dates_default.2 none ⟨2026, 10, 20⟩).2⟩

/-! ## Orchestrator claims -/

/-- A modifier result used as a sample stage output. -/
def sampleModifierResult : ModifierResult :=
  { modifiers_applied := []
    total_modifier_impact := 0
    total_modifier_percentage := 0
    adjusted_premium := 5000 }

/-- An authority check used as a sample stage output. -/
def sampleAuthority : AuthorityCheck :=
  { authority_level := .standard
    requires_approval := false
    approval_reason := none
    approver_role := none
    auto_bind_eligible := true
    referral_reasons := [] }

/-- A risk assessment used as a sample stage output. -/
def sampleRisk : RiskAssessment :=
  { overall_risk_level := "LOW".toList
    risk_score := 20
    recommendation := "ACCEPT".toList }

/-- A generated quote used as a sample stage output. -/
def sampleQuote : GeneratedQuote :=
  { quote_id := "Q-20261012-0A1B2C3D".toList
    client_name := "Acme Logistics".toList
    quote_valid_until := "2026-11-11".toList
    total_annual_premium := 5000
    coverage_summary := "General liability".toList
    quote_letter := "Dear broker".toList
    pipeline_version := "1.0".toList }

/-- An environment in which every stage succeeds and the MongoDB write
succeeds. -/
def okEnv : StageEnv :=
  { parseEmailStage := fun _ => .ok emailVehicleZero
    classifyStage := fun _ => .ok industryMediumRisk
    rateStage := fun _ _ => .ok [rateWholeMinimum]
    revenueStage := fun _ _ => .ok none
    premiumStage := fun _ _ _ => .ok premiumCalc5000
    modifierStage := fun _ _ _ => .ok sampleModifierResult
    authorityStage := fun _ _ _ => .ok sampleAuthority
    coverageStage := fun _ _ => .ok {}
    riskStage := fun _ _ _ => .ok sampleRisk
    quoteStage := fun _ _ _ _ _ _ _ => .ok sampleQuote
    saveOk := true
    savedAt := 0
    totalDuration := 0
    stepDuration := fun _ => 0 }

/-- The same environment except that rate discovery (stage 3) raises. -/
def failEnv : StageEnv :=
  { okEnv with rateStage := fun _ _ => .error ("LLM unreachable".toList) }

/-- C2: process never propagates a stage exception: it always returns a
PipelineResult; success is false exactly when errors is non-empty (the
only failure signal); when stage k is the first to raise, the result
carries success = false, exactly the stringified triggering error in
errors, and every stage output completed before the failure; and when
all ten stages succeed the result carries success = true, no errors, and
all ten outputs. -/
theorem pipeline_failure_contract :
    ∀ env email,
      ((process env email).result.success = false ↔
        (process env email).result.errors ≠ []) ∧
      (∀ e, env.parseEmailStage email = .error e →
        (process env email).result.success = false ∧
        (process env email).result.errors = [e]) ∧
      (∀ pe e, env.parseEmailStage email = .ok pe →
        env.classifyStage pe = .error e →
        (process env email).result.success = false ∧
        (process env email).result.errors = [e] ∧
        (process env email).result.extracted_email = some pe) ∧
      (∀ pe ic e, env.parseEmailStage email = .ok pe →
        env.classifyStage pe = .ok ic →
        env.rateStage pe ic = .error e →
        (process env email).result.success = false ∧
        (process env email).result.errors = [e] ∧
        (process env email).result.extracted_email = some pe ∧
        (process env email).result.industry_classification = some ic) ∧
      (∀ pe ic rates e, env.parseEmailStage email = .ok pe →
        env.classifyStage pe = .ok ic →
        env.rateStage pe ic = .ok rates →
        env.revenueStage pe ic = .error e →
        (process env email).result.success = false ∧
        (process env email).result.errors = [e] ∧
        (process env email).result.extracted_email = some pe ∧
        (process env email).result.industry_classification = some ic ∧
        (process env email).result.rate_info = rates) ∧
      (∀ pe ic rates re e, env.parseEmailStage email = .ok pe →
        env.classifyStage pe = .ok ic →
        env.rateStage pe ic = .ok rates →
        env.revenueStage pe ic = .ok re →
        env.premiumStage pe rates re = .error e →
        (process env email).result.success = false ∧
        (process env email).result.errors = [e] ∧
        (process env email).result.extracted_email = some pe ∧
        (process env email).result.industry_classification = some ic ∧
        (process env email).result.rate_info = rates ∧
        (process env email).result.revenue_estimate = re) ∧
      (∀ pe ic rates re pc e, env.parseEmailStage email = .ok pe →
        env.classifyStage pe = .ok ic →
        env.rateStage pe ic = .ok rates →
        env.revenueStage pe ic = .ok re →
        env.premiumStage pe rates re = .ok pc →
        env.modifierStage pe ic pc = .error e →
        (process env email).result.success = false ∧
        (process env email).result.errors = [e] ∧
        (process env email).result.extracted_email = some pe ∧
        (process env email).result.industry_classification = some ic ∧
        (process env email).result.rate_info = rates ∧
        (process env email).result.revenue_estimate = re ∧
        (process env email).result.premium_calculation = some pc) ∧
      (∀ pe ic rates re pc mr e, env.parseEmailStage email = .ok pe →
        env.classifyStage pe = .ok ic →
        env.rateStage pe ic = .ok rates →
        env.revenueStage pe ic = .ok re →
        env.premiumStage pe rates re = .ok pc →
        env.modifierStage pe ic pc = .ok mr →
        env.authorityStage pe ic mr = .error e →
        (process env email).result.success = false ∧
        (process env email).result.errors = [e] ∧
        (process env email).result.extracted_email = some pe ∧
        (process env email).result.industry_classification = some ic ∧
        (process env email).result.rate_info = rates ∧
        (process env email).result.revenue_estimate = re ∧
        (process env email).result.premium_calculation = some pc ∧
        (process env email).result.modifier_result = some mr) ∧
      (∀ pe ic rates re pc mr ac e, env.parseEmailStage email = .ok pe →
        env.classifyStage pe = .ok ic →
        env.rateStage pe ic = .ok rates →
        env.revenueStage pe ic = .ok re →
        env.premiumStage pe rates re = .ok pc →
        env.modifierStage pe ic pc = .ok mr →
        env.authorityStage pe ic mr = .ok ac →
        env.coverageStage pe ic = .error e →
        (process env email).result.success = false ∧
        (process env email).result.errors = [e] ∧
        (process env email).result.extracted_email = some pe ∧
        (process env email).result.industry_classification = some ic ∧
        (process env email).result.rate_info = rates ∧
        (process env email).result.revenue_estimate = re ∧
        (process env email).result.premium_calculation = some pc ∧
        (process env email).result.modifier_result = some mr ∧
        (process env email).result.authority_check = some ac) ∧
      (∀ pe ic rates re pc mr ac cov e, env.parseEmailStage email = .ok pe →
        env.classifyStage pe = .ok ic →
        env.rateStage pe ic = .ok rates →
        env.revenueStage pe ic = .ok re →
        env.premiumStage pe rates re = .ok pc →
        env.modifierStage pe ic pc = .ok mr →
        env.authorityStage pe ic mr = .ok ac →
        env.coverageStage pe ic = .ok cov →
        env.riskStage pe ic mr = .error e →
        (process env email).result.success = false ∧
        (process env email).result.errors = [e] ∧
        (process env email).result.extracted_email = some pe ∧
        (process env email).result.industry_classification = some ic ∧
        (process env email).result.rate_info = rates ∧
        (process env email).result.revenue_estimate = re ∧
        (process env email).result.premium_calculation = some pc ∧
        (process env email).result.modifier_result = some mr ∧
        (process env email).result.authority_check = some ac ∧
        (process env email).result.coverage_analysis = some cov) ∧
      (∀ pe ic rates re pc mr ac cov rk e, env.parseEmailStage email = .ok pe →
        env.classifyStage pe = .ok ic →
        env.rateStage pe ic = .ok rates →
        env.revenueStage pe ic = .ok re →
        env.premiumStage pe rates re = .ok pc →
        env.modifierStage pe ic pc = .ok mr →
        env.authorityStage pe ic mr = .ok ac →
        env.coverageStage pe ic = .ok cov →
        env.riskStage pe ic mr = .ok rk →
        env.quoteStage pe ic pc mr cov rk ac = .error e →
        (process env email).result.success = false ∧
        (process env email).result.errors = [e] ∧
        (process env email).result.extracted_email = some pe ∧
        (process env email).result.industry_classification = some ic ∧
        (process env email).result.rate_info = rates ∧
        (process env email).result.revenue_estimate = re ∧
        (process env email).result.premium_calculation = some pc ∧
        (process env email).result.modifier_result = some mr ∧
        (process env email).result.authority_check = some ac ∧
        (process env email).result.coverage_analysis = some cov ∧
        (process env email).result.risk_assessment = some rk) ∧
      (∀ pe ic rates re pc mr ac cov rk q, env.parseEmailStage email = .ok pe →
        env.classifyStage pe = .ok ic →
        env.rateStage pe ic = .ok rates →
        env.revenueStage pe ic = .ok re →
        env.premiumStage pe rates re = .ok pc →
        env.modifierStage pe ic pc = .ok mr →
        env.authorityStage pe ic mr = .ok ac →
        env.coverageStage pe ic = .ok cov →
        env.riskStage pe ic mr = .ok rk →
        env.quoteStage pe ic pc mr cov rk ac = .ok q →
        (process env email).result.success = true ∧
        (process env email).result.errors = [] ∧
        (process env email).result.extracted_email = some pe ∧
        (process env email).result.industry_classification = some ic ∧
        (process env email).result.rate_info = rates ∧
        (process env email).result.revenue_estimate = re ∧
        (process env email).result.premium_calculation = some pc ∧
        (process env email).result.modifier_result = some mr ∧
        (process env email).result.authority_check = some ac ∧
        (process env email).result.coverage_analysis = some cov ∧
        (process env email).result.risk_assessment = some rk ∧
        (process env email).result.generated_quote = some q ∧
        (process env email).result.quote_id = some q.quote_id) := by
  intro env email
  refine ⟨?_, ?_, ?_, ?_, ?_, ?_, ?_, ?_, ?_, ?_, ?_, ?_⟩
  · rcases h1 : env.parseEmailStage email with e | pe
    · simp [process, h1, attachMetrics]
    · rcases h2 : env.classifyStage pe with e | ic
      · simp [process, h1, h2, attachMetrics]
      · rcases h3 : env.rateStage pe ic with e | rates
        · simp [process, h1, h2, h3, attachMetrics]
        · rcases h4 : env.revenueStage pe ic with e | re
          · simp [process, h1, h2, h3, h4, attachMetrics]
          · rcases h5 : env.premiumStage pe rates re with e | pc
            · simp [process, h1, h2, h3, h4, h5, attachMetrics]
            · rcases h6 : env.modifierStage pe ic pc with e | mr
              · simp [process, h1, h2, h3, h4, h5, h6, attachMetrics]
              · rcases h7 : env.authorityStage pe ic mr with e | ac
                · simp [process, h1, h2, h3, h4, h5, h6, h7, attachMetrics]
                · rcases h8 : env.coverageStage pe ic with e | cov
                  · simp [process, h1, h2, h3, h4, h5, h6, h7, h8, attachMetrics]
                  · rcases h9 : env.riskStage pe ic mr with e | rk
                    · simp [process, h1, h2, h3, h4, h5, h6, h7, h8, h9, attachMetrics]
                    · rcases h10 : env.quoteStage pe ic pc mr cov rk ac with e | q
                      · simp [process, h1, h2, h3, h4, h5, h6, h7, h8, h9, h10,
                          attachMetrics]
                      · simp [process, h1, h2, h3, h4, h5, h6, h7, h8, h9, h10,
                          attachMetrics]
  · intro e h1
    simp [process, h1, attachMetrics]
  · intro pe e h1 h2
    simp [process, h1, h2, attachMetrics]
  · intro pe ic e h1 h2 h3
    simp [process, h1, h2, h3, attachMetrics]
  · intro pe ic rates e h1 h2 h3 h4
    simp [process, h1, h2, h3, h4, attachMetrics]
  · intro pe ic rates re e h1 h2 h3 h4 h5
    simp [process, h1, h2, h3, h4, h5, attachMetrics]
  · intro pe ic rates re pc e h1 h2 h3 h4 h5 h6
    simp [process, h1, h2, h3, h4, h5, h6, attachMetrics]
  · intro pe ic rates re pc mr e h1 h2 h3 h4 h5 h6 h7
    simp [process, h1, h2, h3, h4, h5, h6, h7, attachMetrics]
  · intro pe ic rates re pc mr ac e h1 h2 h3 h4 h5 h6 h7 h8
    simp [process, h1, h2, h3, h4, h5, h6, h7, h8, attachMetrics]
  · intro pe ic rates re pc mr ac cov e h1 h2 h3 h4 h5 h6 h7 h8 h9
    simp [process, h1, h2, h3, h4, h5, h6, h7, h8, h9, attachMetrics]
  · intro pe ic rates re pc mr ac cov rk e h1 h2 h3 h4 h5 h6 h7 h8 h9 h10
    simp [process, h1, h2, h3, h4, h5, h6, h7, h8, h9, h10, attachMetrics]
  · intro pe ic rates re pc mr ac cov rk q h1 h2 h3 h4 h5 h6 h7 h8 h9 h10
    simp [process, h1, h2, h3, h4, h5, h6, h7, h8, h9, h10, attachMetrics]

/-- C2 witness: in an environment whose rate-discovery stage raises,
process returns success = false, exactly the stringified error, and the
outputs of the two completed stages. -/
theorem pipeline_failure_contract_witness :
    (process failEnv ("quote request".toList)).result.success = false ∧
    (process failEnv ("quote request".toList)).result.errors =
      [("LLM unreachable".toList)] ∧
    (process failEnv ("quote request".toList)).result.extracted_email =
      some emailVehicleZero ∧
    (process failEnv ("quote request".toList)).result.industry_classification =
      some industryMediumRisk := by
  have h := (pipeline_failure_contract failEnv ("quote request".toList)).2.2.2.1
    emailVehicleZero industryMediumRisk ("LLM unreachable".toList) rfl rfl rfl
  exact ⟨h.1, h.2.1, h.2.2.1, h.2.2.2⟩

/-- C10: a pipeline run is persisted only on the all-ten-stages-complete
path, after success is set to true and before metrics, errors and
warnings are attached, so the saved document always has success = true,
null metrics, empty errors and empty warnings, and is keyed by the
result's quote id; a failing MongoDB write is swallowed inside
_save_result, leaving the returned result with success = true and empty
errors. -/
theorem pipeline_save_contract :
    ∀ env email,
      (∀ sq, (process env email).saved = some sq →
        sq.doc.success = true ∧ sq.doc.metrics = none ∧ sq.doc.errors = [] ∧
        sq.doc.warnings = [] ∧ sq.id = sq.doc.quote_id ∧
        (process env email).result.success = true) ∧
      (env.saveOk = false → (process env email).saved = none) ∧
      (∀ pe ic rates re pc mr ac cov rk q, env.parseEmailStage email = .ok pe →
        env.classifyStage pe = .ok ic →
        env.rateStage pe ic = .ok rates →
        env.revenueStage pe ic = .ok re →
        env.premiumStage pe rates re = .ok pc →
        env.modifierStage pe ic pc = .ok mr →
        env.authorityStage pe ic mr = .ok ac →
        env.coverageStage pe ic = .ok cov →
        env.riskStage pe ic mr = .ok rk →
        env.quoteStage pe ic pc mr cov rk ac = .ok q →
        (process env email).result.success = true ∧
        (process env email).result.errors = [] ∧
        ((process env email).saved = none ↔ env.saveOk = false)) := by
  intro env email
  refine ⟨?_, ?_, ?_⟩
  · intro sq hsq
    rcases h1 : env.parseEmailStage email with e | pe
    · simp [process, h1, attachMetrics] at hsq
    · rcases h2 : env.classifyStage pe with e | ic
      · simp [process, h1, h2, attachMetrics] at hsq
      · rcases h3 : env.rateStage pe ic with e | rates
        · simp [process, h1, h2, h3, attachMetrics] at hsq
        · rcases h4 : env.revenueStage pe ic with e | re
          · simp [process, h1, h2, h3, h4, attachMetrics] at hsq
          · rcases h5 : env.premiumStage pe rates re with e | pc
            · simp [process, h1, h2, h3, h4, h5, attachMetrics] at hsq
            · rcases h6 : env.modifierStage pe ic pc with e | mr
              · simp [process, h1, h2, h3, h4, h5, h6, attachMetrics] at hsq
              · rcases h7 : env.authorityStage pe ic mr with e | ac
                · simp [process, h1, h2, h3, h4, h5, h6, h7, attachMetrics] at hsq
                · rcases h8 : env.coverageStage pe ic with e | cov
                  · simp [process, h1, h2, h3, h4, h5, h6, h7, h8, attachMetrics] at hsq
                  · rcases h9 : env.riskStage pe ic mr with e | rk
                    · simp [process, h1, h2, h3, h4, h5, h6, h7, h8, h9,
                        attachMetrics] at hsq
                    · rcases h10 : env.quoteStage pe ic pc mr cov rk ac with e | q
                      · simp [process, h1, h2, h3, h4, h5, h6, h7, h8, h9, h10,
                          attachMetrics] at hsq
                      · by_cases hs : env.saveOk
                        · simp [process, h1, h2, h3, h4, h5, h6, h7, h8, h9, h10,
                            hs, attachMetrics] at hsq
                          subst hsq
                          simp [process, h1, h2, h3, h4, h5, h6, h7, h8, h9, h10,
                            hs, attachMetrics]
                        · simp [process, h1, h2, h3, h4, h5, h6, h7, h8, h9, h10,
                            hs, attachMetrics] at hsq
  · intro hs
    rcases h1 : env.parseEmailStage email with e | pe
    · simp [process, h1, attachMetrics]
    · rcases h2 : env.classifyStage pe with e | ic
      · simp [process, h1, h2, attachMetrics]
      · rcases h3 : env.rateStage pe ic with e | rates
        · simp [process, h1, h2, h3, attachMetrics]
        · rcases h4 : env.revenueStage pe ic with e | re
          · simp [process, h1, h2, h3, h4, attachMetrics]
          · rcases h5 : env.premiumStage pe rates re with e | pc
            · simp [process, h1, h2, h3, h4, h5, attachMetrics]
            · rcases h6 : env.modifierStage pe ic pc with e | mr
              · simp [process, h1, h2, h3, h4, h5, h6, attachMetrics]
              · rcases h7 : env.authorityStage pe ic mr with e | ac
                · simp [process, h1, h2, h3, h4, h5, h6, h7, attachMetrics]
                · rcases h8 : env.coverageStage pe ic with e | cov
                  · simp [process, h1, h2, h3, h4, h5, h6, h7, h8, attachMetrics]
                  · rcases h9 : env.riskStage pe ic mr with e | rk
                    · simp [process, h1, h2, h3, h4, h5, h6, h7, h8, h9, attachMetrics]
                    · rcases h10 : env.quoteStage pe ic pc mr cov rk ac with e | q
                      · simp [process, h1, h2, h3, h4, h5, h6, h7, h8, h9, h10,
                          attachMetrics]
                      · simp [process, h1, h2, h3, h4, h5, h6, h7, h8, h9, h10,
                          hs, attachMetrics]
  · intro pe ic rates re pc mr ac cov rk q h1 h2 h3 h4 h5 h6 h7 h8 h9 h10
    by_cases hs : env.saveOk <;>
      simp [process, h1, h2, h3, h4, h5, h6, h7, h8, h9, h10, hs, attachMetrics]

/-- C10 witness: in the all-stages-succeed environment with a working
MongoDB write, the returned result has success = true and no errors, and
the persisted snapshot has success = true, null metrics, empty errors
and empty warnings. -/
theorem pipeline_save_contract_witness :
    (process okEnv ("quote request".toList)).result.success = true ∧
    (process okEnv ("quote request".toList)).result.errors = [] ∧
    (process okEnv ("quote request".toList)).saved.map (fun sq => sq.doc.success) =
      some true ∧
    (process okEnv ("quote request".toList)).saved.map (fun sq => sq.doc.metrics) =
      some none ∧
    (process okEnv ("quote request".toList)).saved.map (fun sq => sq.doc.errors) =
      some [] ∧
    (process okEnv ("quote request".toList)).saved.map (fun sq => sq.doc.warnings) =
      some [] := by
  have hmain := (pipeline_save_contract okEnv ("quote request".toList)).2.2
    emailVehicleZero industryMediumRisk [rateWholeMinimum] none premiumCalc5000
    sampleModifierResult sampleAuthority {} sampleRisk sampleQuote
    rfl rfl rfl rfl rfl rfl rfl rfl rfl rfl
  have hsome : ∃ sq, (process okEnv ("quote request".toList)).saved = some sq := by
    rcases hsv : (process okEnv ("quote request".toList)).saved with _ | sq
    · have := hmain.2.2.mp hsv
      simp [okEnv] at this
    · exact ⟨sq, rfl⟩
  rcases hsome with ⟨sq, hsv⟩
  have hdoc := (pipeline_save_contract okEnv ("quote request".toList)).1 sq hsv
  rw [hsv]
  exact ⟨hmain.1, hmain.2.1, by simp [hdoc.1], by simp [hdoc.2.1], by simp [hdoc.2.2.1],
    by simp [hdoc.2.2.2.1]⟩

end InsurancePipeline
